import Mathlib

/-!
Shallow embedding of the `mijn_pwn` integration's API client
(`custom_components/mijn_pwn/const.py`, `api.py`, `auth.py`,
`coordinator.py`).

HTTP is modelled as a trace of outcomes (`List HttpOutcome`) consumed in
order: each network operation pops the next outcome.  Every request that is
actually sent is logged as a `Request`, so "number of network calls" is the
length of the returned request log.  Parsed JSON bodies are modelled as
string-keyed association lists (`Body`), which is all the code inspects
(`dict.get`, truthiness).
-/

namespace MijnPwn

/-- A parsed JSON object body, as the code uses it: a string-keyed mapping. -/
abbrev Body := List (String × String)

/-- Python `dict.get(key)`: the value at `key`, or absent. -/
def Body.get (b : Body) (key : String) : Option String :=
  (b.find? (fun p => p.1 == key)).map (·.2)

/-- Python truthiness of an optional string: `None` and `""` are falsy. -/
def optTruthy : Option String → Bool
  | none => false
  | some s => !s.isEmpty

/-- Outcome of one network call: an HTTP response with status and JSON body,
a timeout (`asyncio.TimeoutError` / `requests` timeout), or a transport
error (`aiohttp.ClientError` / `requests.RequestException`). -/
inductive HttpOutcome where
  | resp (status : Nat) (body : Body)
  | timeout
  | clientError
deriving DecidableEq

/-- A request actually sent on the wire: method, URL and (for GETs) the
access token put in the `Authorization` header at send time. -/
structure Request where
  method : String
  url : String
  bearer : Option String
deriving DecidableEq

/-- Pop the next outcome off the trace. -/
def netNext : List HttpOutcome → HttpOutcome × List HttpOutcome
  | [] => (.clientError, [])
  | o :: rest => (o, rest)

/-! ## const.py -/

/-- `API_URL` from const.py. -/
def API_URL : String := "https://mijn.pwn.nl"

/-- `API_TIMEOUT` from const.py (seconds). -/
def API_TIMEOUT : Nat := 10

def loginUrl : String := API_URL ++ "/api/auth/login"

def contactPreferencesUrl : String := API_URL ++ "/api/Customer/contact-preferences"

def settingsUrl : String := API_URL ++ "/assets/configs/mijn-pwn-nl/settings.json"

def takeoverUrl : String := API_URL ++ "/api/Takeover?domain=2"

def invoicesSummaryUrl : String := API_URL ++ "/api/Invoices/summary"

def relationDataUrl : String := API_URL ++ "/api/Customer/relation-data"

def paymentInfoUrl : String := API_URL ++ "/api/PaymentInfo"

def advanceUrl : String := API_URL ++ "/api/advance"

def notificationsUrl : String := API_URL ++ "/api/Notifications"

def consumptionHistoryUrl : String := API_URL ++ "/api/connection/consumption-history/dashboard"

/-- `API_ENDPOINTS` from const.py: logical name → absolute URL. -/
def API_ENDPOINTS : List (String × String) :=
  [("login", loginUrl),
   ("contact_preferences", contactPreferencesUrl),
   ("settings", settingsUrl),
   ("takeover", takeoverUrl),
   ("invoices_summary", invoicesSummaryUrl),
   ("relation_data", relationDataUrl),
   ("payment_info", paymentInfoUrl),
   ("advance", advanceUrl),
   ("notifications", notificationsUrl),
   ("consumption_history", consumptionHistoryUrl)]

/-- `API_ENDPOINTS.get(name)` — Python dict lookup. -/
def endpointLookup (name : String) : Option String :=
  Body.get API_ENDPOINTS name

/-! ## api.py — exception classes

In the source, `PWNAPICommunicationError` and `PWNAPIAuthenticationError`
are both subclasses of `PWNAPIError`; the constructors below record the
concrete class raised. -/

inductive PWNError where
  | apiError (msg : String)
  | communicationError (msg : String)
  | authenticationError (msg : String)
deriving DecidableEq

/-! ## api.py — PWNAuth -/

/-- The mutable fields of `PWNAuth` (api.py). -/
structure AuthState where
  username : String
  password : String
  access_token : Option String
  refresh_token : Option String
deriving DecidableEq

/-- Result of `PWNAuth.login`: returned boolean, new auth state, requests
sent, remaining trace. -/
structure LoginOut where
  ok : Bool
  state : AuthState
  requests : List Request
  net : List HttpOutcome

/-- `PWNAuth.login` (api.py): POST credentials to the login endpoint; on
200 store `accessToken`/`refreshToken` from the body and return True; on
any other status, timeout or error return False (all exceptions are caught
inside). -/
def PWNAuth.login (st : AuthState) (net : List HttpOutcome) : LoginOut :=
  let reqs : List Request := [⟨"POST", loginUrl, none⟩]
  match netNext net with
  | (.resp s body, net') =>
    if s = 200 then
      ⟨true,
       { st with access_token := Body.get body "accessToken",
                 refresh_token := Body.get body "refreshToken" },
       reqs, net'⟩
    else
      ⟨false, st, reqs, net'⟩
  | (.timeout, net') => ⟨false, st, reqs, net'⟩
  | (.clientError, net') => ⟨false, st, reqs, net'⟩

/-- State, request log and remaining trace after an auth-side operation
that returns no value (`PWNAuth.refresh_tokens` in api.py returns None). -/
structure AuthPhase where
  state : AuthState
  requests : List Request
  net : List HttpOutcome

/-- `PWNAuth.refresh_tokens` (api.py): if no refresh token is held
(`not self.refresh_token`), log and return at once — no request.  Otherwise
POST to the login endpoint; on 200 store both tokens from the body; on any
other status, timeout or error just log and return (nothing is raised:
the `PWNAPIAuthenticationError` handler inside is dead code). -/
def PWNAuth.refresh_tokens (st : AuthState) (net : List HttpOutcome) : AuthPhase :=
  if optTruthy st.refresh_token = false then
    ⟨st, [], net⟩
  else
    let reqs : List Request := [⟨"POST", loginUrl, none⟩]
    match netNext net with
    | (.resp s body, net') =>
      if s = 200 then
        ⟨{ st with access_token := Body.get body "accessToken",
                   refresh_token := Body.get body "refreshToken" },
         reqs, net'⟩
      else
        ⟨st, reqs, net'⟩
    | (.timeout, net') => ⟨st, reqs, net'⟩
    | (.clientError, net') => ⟨st, reqs, net'⟩

/-- `PWNAuth.is_authenticated` (api.py): `bool(self.access_token)` — a
purely local check. -/
def PWNAuth.is_authenticated (st : AuthState) : Bool :=
  optTruthy st.access_token

/-- `PWNAuth.logout` (api.py): clear both tokens, no network call. -/
def PWNAuth.logout (st : AuthState) : AuthState :=
  { st with access_token := none, refresh_token := none }

/-! ## api.py — PWNAPI -/

/-- Lines 182–183 of api.py: `if not self.auth.is_authenticated(): await
self.auth.login(...)`.  The boolean returned by `login` is discarded. -/
def ensureLogin (st : AuthState) (net : List HttpOutcome) : AuthPhase :=
  if PWNAuth.is_authenticated st then ⟨st, [], net⟩
  else
    let l := PWNAuth.login st net
    ⟨l.state, l.requests, l.net⟩

/-- Result of `PWNAPI.fetch_data_from_api`: the returned body or the raised
exception, plus final auth state, request log and remaining trace. -/
structure FetchOut where
  result : Except PWNError Body
  state : AuthState
  requests : List Request
  net : List HttpOutcome

/-- `PWNAPI.fetch_data_from_api` (api.py).  Login first if unauthenticated
(result ignored); GET the URL with the current access token.  On 401/403:
refresh tokens, then retry the GET exactly once; a non-200 retry raises
`UpdateFailed`, which the function's own `except Exception` handler turns
into the generic `PWNAPIError("Something really wrong happened!")`.  Any
other non-200 status takes the same `UpdateFailed` → `PWNAPIError` path.
An `asyncio.TimeoutError` is turned into
`PWNAPICommunicationError("Timeout error fetching information")`; any other
transport error becomes the generic `PWNAPIError`. -/
def PWNAPI.fetch_data_from_api (st : AuthState) (net : List HttpOutcome)
    (url : String) : FetchOut :=
  let l := ensureLogin st net
  let g1 : Request := ⟨"GET", url, l.state.access_token⟩
  match netNext l.net with
  | (.timeout, net2) =>
    ⟨.error (.communicationError "Timeout error fetching information"),
     l.state, l.requests ++ [g1], net2⟩
  | (.clientError, net2) =>
    ⟨.error (.apiError "Something really wrong happened!"),
     l.state, l.requests ++ [g1], net2⟩
  | (.resp s body, net2) =>
    if s = 401 ∨ s = 403 then
      let r := PWNAuth.refresh_tokens l.state net2
      let g2 : Request := ⟨"GET", url, r.state.access_token⟩
      match netNext r.net with
      | (.timeout, net4) =>
        ⟨.error (.communicationError "Timeout error fetching information"),
         r.state, l.requests ++ [g1] ++ r.requests ++ [g2], net4⟩
      | (.clientError, net4) =>
        ⟨.error (.apiError "Something really wrong happened!"),
         r.state, l.requests ++ [g1] ++ r.requests ++ [g2], net4⟩
      | (.resp s2 b2, net4) =>
        if s2 = 200 then
          ⟨.ok b2, r.state, l.requests ++ [g1] ++ r.requests ++ [g2], net4⟩
        else
          ⟨.error (.apiError "Something really wrong happened!"),
           r.state, l.requests ++ [g1] ++ r.requests ++ [g2], net4⟩
    else if s = 200 then
      ⟨.ok body, l.state, l.requests ++ [g1], net2⟩
    else
      ⟨.error (.apiError "Something really wrong happened!"),
       l.state, l.requests ++ [g1], net2⟩

/-- Result of `PWNAPI.async_get_data`: `Optional[dict]` or a raised
exception, plus state, request log and remaining trace. -/
structure GetDataOut where
  result : Except PWNError (Option Body)
  state : AuthState
  requests : List Request
  net : List HttpOutcome

/-- `PWNAPI.async_get_data` (api.py): look the endpoint name up in
`API_ENDPOINTS`; if the URL is absent or falsy, log and return `None`
without any network call; otherwise delegate to `fetch_data_from_api`. -/
def PWNAPI.async_get_data (st : AuthState) (net : List HttpOutcome)
    (endpoint : String) : GetDataOut :=
  match endpointLookup endpoint with
  | none => ⟨.ok none, st, [], net⟩
  | some url =>
    if url.isEmpty then ⟨.ok none, st, [], net⟩
    else
      let f := PWNAPI.fetch_data_from_api st net url
      ⟨f.result.map some, f.state, f.requests, f.net⟩

/-- `PWNAPI.async_get_settings` (api.py): calls `async_get_data` with
`API_ENDPOINTS['settings']` — i.e. it passes the settings *URL* where
`async_get_data` expects a catalog *name*. -/
def PWNAPI.async_get_settings (st : AuthState) (net : List HttpOutcome) :
    GetDataOut :=
  PWNAPI.async_get_data st net settingsUrl

/-! ## auth.py — the requests-based PWNAuth variant

auth.py builds `api_login_url` from a `DATA_URL` constant; only the parts a
claim depends on are used below, with the URL kept as a state field. -/

/-- The mutable fields of the auth.py `PWNAuth`. -/
structure AuthPyState where
  username : String
  password : String
  access_token : Option String
  refresh_token : Option String
  api_login_url : String
deriving DecidableEq

/-- Result of the auth.py `refresh_tokens`: returned boolean, new state,
requests sent, remaining trace. -/
structure AuthPyRefreshOut where
  ok : Bool
  state : AuthPyState
  requests : List Request
  net : List HttpOutcome

/-- `PWNAuth.refresh_tokens` (auth.py): if no refresh token is held
(`not self.refresh_token`), log and return False — no request.  Otherwise
POST to `api_login_url`; on 200 store both tokens from the body and return
True; on any other status return False; a `requests` exception (timeout or
transport error) is caught and yields False. -/
def AuthPy.refresh_tokens (st : AuthPyState) (net : List HttpOutcome) :
    AuthPyRefreshOut :=
  if optTruthy st.refresh_token = false then
    ⟨false, st, [], net⟩
  else
    let reqs : List Request := [⟨"POST", st.api_login_url, none⟩]
    match netNext net with
    | (.resp s body, net') =>
      if s = 200 then
        ⟨true,
         { st with access_token := Body.get body "accessToken",
                   refresh_token := Body.get body "refreshToken" },
         reqs, net'⟩
      else
        ⟨false, st, reqs, net'⟩
    | (.timeout, net') => ⟨false, st, reqs, net'⟩
    | (.clientError, net') => ⟨false, st, reqs, net'⟩

/-! ## coordinator.py — `_fetch_all_data` -/

/-- Error outcome of a poll cycle: an exception propagated from
`fetch_data_from_api`, or the `UnboundLocalError` Python raises when the
result mapping is built while `contact_preferences` was never assigned. -/
inductive FetchAllError where
  | api (e : PWNError)
  | unboundLocalError
deriving DecidableEq

/-- The result mapping built at the end of `_fetch_all_data`. -/
structure CoordData where
  invoices : Body
  user_data : Body
  consumption_history : Body
  contact_preferences : Body
  payment_info : Body
  advance : Body
  notifications : Body
deriving DecidableEq

/-- A completed poll cycle: the early `return {}` paths, or the full
mapping. -/
inductive FetchAllResult where
  | empty
  | data (d : CoordData)
deriving DecidableEq

/-- Result of `_fetch_all_data` plus final auth state, request log and
remaining trace. -/
structure FetchAllOut where
  result : Except FetchAllError FetchAllResult
  state : AuthState
  requests : List Request
  net : List HttpOutcome

/-- `PWNDataUpdateCoordinator._fetch_all_data` (coordinator.py): six
sequential `fetch_data_from_api` calls; empty invoices / user_data /
consumption_history each short-circuit to `{}`; `relationNumber` from the
user data selects the contact-preferences fetch — when it is absent the
local `contact_preferences` is never assigned and building the result
mapping raises `UnboundLocalError`. -/
def fetch_all_data (st : AuthState) (net : List HttpOutcome) : FetchAllOut :=
  let f1 := PWNAPI.fetch_data_from_api st net invoicesSummaryUrl
  match f1.result with
  | .error e => ⟨.error (.api e), f1.state, f1.requests, f1.net⟩
  | .ok invoices =>
    let f2 := PWNAPI.fetch_data_from_api f1.state f1.net relationDataUrl
    match f2.result with
    | .error e => ⟨.error (.api e), f2.state, f1.requests ++ f2.requests, f2.net⟩
    | .ok user_data =>
      let f3 := PWNAPI.fetch_data_from_api f2.state f2.net consumptionHistoryUrl
      match f3.result with
      | .error e =>
        ⟨.error (.api e), f3.state, f1.requests ++ f2.requests ++ f3.requests, f3.net⟩
      | .ok consumption_history =>
        let f4 := PWNAPI.fetch_data_from_api f3.state f3.net paymentInfoUrl
        match f4.result with
        | .error e =>
          ⟨.error (.api e), f4.state,
           f1.requests ++ f2.requests ++ f3.requests ++ f4.requests, f4.net⟩
        | .ok payment_info =>
          let f5 := PWNAPI.fetch_data_from_api f4.state f4.net advanceUrl
          match f5.result with
          | .error e =>
            ⟨.error (.api e), f5.state,
             f1.requests ++ f2.requests ++ f3.requests ++ f4.requests ++ f5.requests,
             f5.net⟩
          | .ok advance =>
            let f6 := PWNAPI.fetch_data_from_api f5.state f5.net notificationsUrl
            match f6.result with
            | .error e =>
              ⟨.error (.api e), f6.state,
               f1.requests ++ f2.requests ++ f3.requests ++ f4.requests ++
                 f5.requests ++ f6.requests,
               f6.net⟩
            | .ok notifications =>
              let reqs6 :=
                f1.requests ++ f2.requests ++ f3.requests ++ f4.requests ++
                  f5.requests ++ f6.requests
              if invoices.isEmpty then ⟨.ok .empty, f6.state, reqs6, f6.net⟩
              else if user_data.isEmpty then ⟨.ok .empty, f6.state, reqs6, f6.net⟩
              else if consumption_history.isEmpty then
                ⟨.ok .empty, f6.state, reqs6, f6.net⟩
              else
                match Body.get user_data "relationNumber" with
                | some customer_id =>
                  let f7 := PWNAPI.fetch_data_from_api f6.state f6.net
                    (contactPreferencesUrl ++ "/" ++ customer_id)
                  match f7.result with
                  | .error e => ⟨.error (.api e), f7.state, reqs6 ++ f7.requests, f7.net⟩
                  | .ok contact_preferences =>
                    ⟨.ok (.data ⟨invoices, user_data, consumption_history,
                                 contact_preferences, payment_info, advance,
                                 notifications⟩),
                     f7.state, reqs6 ++ f7.requests, f7.net⟩
                | none =>
                  -- `contact_preferences` was never assigned; referencing it
                  -- in the mapping raises UnboundLocalError.
                  ⟨.error .unboundLocalError, f6.state, reqs6, f6.net⟩

/-- Number of GET requests in a request log. -/
def countGets (reqs : List Request) : Nat :=
  (reqs.filter (fun r => r.method == "GET")).length

/-- True iff the outcome is a raised `PWNAPIAuthenticationError`. -/
def isAuthErrorResult : Except PWNError Body → Bool
  | .error (.authenticationError _) => true
  | _ => false

/-- True iff the outcome is a raised `PWNAPICommunicationError`. -/
def isCommunicationErrorResult : Except PWNError Body → Bool
  | .error (.communicationError _) => true
  | _ => false

/-! ## Helper lemmas -/

theorem login_requests (st : AuthState) (net : List HttpOutcome) :
    (PWNAuth.login st net).requests = [⟨"POST", loginUrl, none⟩] := by
  cases net with
  | nil => rfl
  | cons o rest =>
    cases o with
    | resp s body =>
      simp only [PWNAuth.login, netNext]
      split <;> rfl
    | timeout => rfl
    | clientError => rfl

theorem countGets_append (a b : List Request) :
    countGets (a ++ b) = countGets a + countGets b := by
  simp [countGets, List.filter_append]

theorem countGets_single_get (url : String) (bearer : Option String) :
    countGets [⟨"GET", url, bearer⟩] = 1 := rfl

theorem login_countGets (st : AuthState) (net : List HttpOutcome) :
    countGets (PWNAuth.login st net).requests = 0 := by
  rw [login_requests]; rfl

theorem refresh_tokens_countGets (st : AuthState) (net : List HttpOutcome) :
    countGets (PWNAuth.refresh_tokens st net).requests = 0 := by
  unfold PWNAuth.refresh_tokens
  split
  · rfl
  · cases net with
    | nil => rfl
    | cons o rest =>
      cases o with
      | resp s body =>
        simp only [netNext]
        split <;> rfl
      | timeout => rfl
      | clientError => rfl

theorem ensureLogin_countGets (st : AuthState) (net : List HttpOutcome) :
    countGets (ensureLogin st net).requests = 0 := by
  unfold ensureLogin
  split
  · rfl
  · simp only [login_countGets]

/-! ## Claims -/

/-- C1: in `fetch_data_from_api`, a 401/403 triggers at most one
refresh-and-retry: on every trace the request log contains at most two GET
requests, so no third request to the data endpoint is ever attempted,
regardless of the retry's status. -/
theorem fetch_at_most_two_gets (st : AuthState) (net : List HttpOutcome)
    (url : String) :
    countGets (PWNAPI.fetch_data_from_api st net url).requests ≤ 2 := by
  unfold PWNAPI.fetch_data_from_api
  dsimp only
  repeat' split
  all_goals
    simp only [countGets_append, countGets_single_get, ensureLogin_countGets,
      refresh_tokens_countGets]
  all_goals omega

/-- C10: `async_get_settings` passes the settings endpoint's URL to
`async_get_data` as a catalog name; the lookup finds no entry, so for every
client state it returns `None` with zero network calls and an untouched
trace. -/
theorem async_get_settings_returns_none (st : AuthState)
    (net : List HttpOutcome) :
    PWNAPI.async_get_settings st net = ⟨.ok none, st, [], net⟩ := rfl

/-- C7 counterexample: for the unregistered endpoint name "bogus",
`async_get_data` returns the successful absent value `None` (it raises no
error condition at all — the code has no `UnknownEndpointError`), so the
claim that it fails with an unknown-endpoint error is false at this
input. -/
theorem async_get_data_unknown_counterexample :
    PWNAPI.async_get_data ⟨"alice", "secret", none, none⟩ [] "bogus" =
      ⟨.ok none, ⟨"alice", "secret", none, none⟩, [], []⟩ := rfl

/-- C7 (amended): for every endpoint name not present in the catalog,
`async_get_data` immediately returns `None` — a successful absent value,
not an error condition — and performs zero network calls. -/
theorem async_get_data_unknown_endpoint (st : AuthState)
    (net : List HttpOutcome) (endpoint : String)
    (h : endpointLookup endpoint = none) :
    PWNAPI.async_get_data st net endpoint = ⟨.ok none, st, [], net⟩ := by
  unfold PWNAPI.async_get_data
  rw [h]

/-- Witness for C7 (amended) at the concrete name "no_such_endpoint". -/
theorem async_get_data_unknown_endpoint_witness :
    PWNAPI.async_get_data ⟨"bob", "pw", none, none⟩ [] "no_such_endpoint" =
      ⟨.ok none, ⟨"bob", "pw", none, none⟩, [], []⟩ :=
  async_get_data_unknown_endpoint _ _ _ rfl

/-- C8: with no stored refresh token, `refresh_tokens` returns immediately:
no network request is sent, the stored tokens are unchanged and the trace
is untouched — in both the api.py variant (which returns nothing) and the
auth.py variant (which returns False). -/
theorem refresh_tokens_no_token (st : AuthState) (stp : AuthPyState)
    (net netp : List HttpOutcome)
    (h : st.refresh_token = none) (hp : stp.refresh_token = none) :
    PWNAuth.refresh_tokens st net = ⟨st, [], net⟩ ∧
      AuthPy.refresh_tokens stp netp = ⟨false, stp, [], netp⟩ := by
  constructor
  · unfold PWNAuth.refresh_tokens
    rw [h]
    rfl
  · unfold AuthPy.refresh_tokens
    rw [hp]
    rfl

/-- Witness for C8 at concrete unauthenticated-refresh states. -/
theorem refresh_tokens_no_token_witness :
    PWNAuth.refresh_tokens ⟨"alice", "secret", some "A1", none⟩ [] =
        ⟨⟨"alice", "secret", some "A1", none⟩, [], []⟩ ∧
      AuthPy.refresh_tokens ⟨"alice", "secret", some "A1", none, "url"⟩ [] =
        ⟨false, ⟨"alice", "secret", some "A1", none, "url"⟩, [], []⟩ :=
  refresh_tokens_no_token _ _ _ _ rfl rfl

/-- C5 counterexample: a login response of 200 carrying an `accessToken`
but no `refreshToken` still makes `is_authenticated()` true, so
"authenticated iff 200 with both token fields present" is false at this
input. -/
theorem login_is_authenticated_counterexample :
    PWNAuth.is_authenticated
        (PWNAuth.login ⟨"alice", "secret", none, none⟩
          [.resp 200 [("accessToken", "A1")]]).state = true ∧
      Body.get [("accessToken", "A1")] "refreshToken" = none :=
  ⟨rfl, rfl⟩

/-- C5 (amended): from the unauthenticated initial state, `login()` against
a single mocked response followed by `is_authenticated()` is true iff the
response status was 200 and the body's `accessToken` field is present and
non-empty; the `refreshToken` field plays no role. -/
theorem login_is_authenticated_iff (u p : String) (s : Nat) (body : Body) :
    PWNAuth.is_authenticated
        (PWNAuth.login ⟨u, p, none, none⟩ [.resp s body]).state =
      (decide (s = 200) && optTruthy (Body.get body "accessToken")) := by
  simp only [PWNAuth.login, netNext]
  by_cases hs : s = 200
  · subst hs
    simp [PWNAuth.is_authenticated]
  · simp [hs, PWNAuth.is_authenticated, optTruthy]

/-- C6 counterexample: starting from a held token pair, a 200 login
response whose body has only `accessToken` replaces the access token but
sets the stored refresh token to absent — a partial update, so "either both
tokens are replaced by present values or neither changes" is false at this
input. -/
theorem token_pair_partial_update_counterexample :
    (PWNAuth.login ⟨"alice", "secret", some "A0", some "R0"⟩
        [.resp 200 [("accessToken", "A1")]]).state.refresh_token = none ∧
      (PWNAuth.login ⟨"alice", "secret", some "A0", some "R0"⟩
        [.resp 200 [("accessToken", "A1")]]).state ≠
        ⟨"alice", "secret", some "A0", some "R0"⟩ :=
  ⟨rfl, by decide⟩

/-- C6 (amended): for every login or refresh call, either the stored state
is unchanged, or the response was a 200 and both token fields are
overwritten with the body's `accessToken`/`refreshToken` lookups — each
independently and possibly absent, so a 200 response missing a field
partially updates the pair with an absent value. -/
theorem token_pair_update_characterization (st : AuthState)
    (net : List HttpOutcome) :
    ((PWNAuth.login st net).state = st ∨
      ∃ body, (netNext net).1 = .resp 200 body ∧
        (PWNAuth.login st net).state =
          { st with access_token := Body.get body "accessToken",
                    refresh_token := Body.get body "refreshToken" }) ∧
    ((PWNAuth.refresh_tokens st net).state = st ∨
      ∃ body, (netNext net).1 = .resp 200 body ∧
        (PWNAuth.refresh_tokens st net).state =
          { st with access_token := Body.get body "accessToken",
                    refresh_token := Body.get body "refreshToken" }) := by
  constructor
  · cases net with
    | nil => left; rfl
    | cons o rest =>
      cases o with
      | resp s body =>
        by_cases hs : s = 200
        · subst hs
          right
          exact ⟨body, rfl, rfl⟩
        · left
          simp [PWNAuth.login, netNext, hs]
      | timeout => left; rfl
      | clientError => left; rfl
  · by_cases hrt : optTruthy st.refresh_token = false
    · left
      unfold PWNAuth.refresh_tokens
      rw [if_pos hrt]
    · cases net with
      | nil =>
        left
        unfold PWNAuth.refresh_tokens
        rw [if_neg hrt]
        rfl
      | cons o rest =>
        cases o with
        | resp s body =>
          by_cases hs : s = 200
          · subst hs
            right
            refine ⟨body, rfl, ?_⟩
            unfold PWNAuth.refresh_tokens
            rw [if_neg hrt]
            rfl
          · left
            unfold PWNAuth.refresh_tokens
            rw [if_neg hrt]
            simp [netNext, hs]
        | timeout =>
          left
          unfold PWNAuth.refresh_tokens
          rw [if_neg hrt]
          rfl
        | clientError =>
          left
          unfold PWNAuth.refresh_tokens
          rw [if_neg hrt]
          rfl

theorem refresh_tokens_net (st : AuthState) (o : HttpOutcome)
    (rest : List HttpOutcome) (hrt : optTruthy st.refresh_token = true) :
    (PWNAuth.refresh_tokens st (o :: rest)).net = rest := by
  unfold PWNAuth.refresh_tokens
  rw [if_neg (by simp [hrt])]
  cases o with
  | resp s body =>
    simp only [netNext]
    split <;> rfl
  | timeout => rfl
  | clientError => rfl

/-- C2 counterexample: first GET 401, refresh rejected with 401, retried
GET 401 — the fetch raises the generic
`PWNAPIError("Something really wrong happened!")`, not an
authentication-error condition, so the claim is false at this input. -/
theorem fetch_auth_retry_counterexample :
    (PWNAPI.fetch_data_from_api ⟨"alice", "secret", some "A1", some "R1"⟩
        [.resp 401 [], .resp 401 [], .resp 401 []] invoicesSummaryUrl).result =
      .error (.apiError "Something really wrong happened!") ∧
      isAuthErrorResult
        (PWNAPI.fetch_data_from_api ⟨"alice", "secret", some "A1", some "R1"⟩
          [.resp 401 [], .resp 401 [], .resp 401 []]
          invoicesSummaryUrl).result = false :=
  ⟨rfl, rfl⟩

/-- C2 (amended): when the first GET returns 401/403 and the retried GET
(after the token refresh, whatever its outcome) returns a non-200 status,
the fetch propagates the generic
`PWNAPIError("Something really wrong happened!")` — neither the
authentication-error nor the communication-error condition. -/
theorem fetch_auth_retry_non200_generic_error (st : AuthState)
    (s : Nat) (b : Body) (o : HttpOutcome) (s2 : Nat) (b2 : Body)
    (rest : List HttpOutcome) (url : String)
    (hauth : PWNAuth.is_authenticated st = true)
    (hrt : optTruthy st.refresh_token = true)
    (hs : s = 401 ∨ s = 403) (hs2 : s2 ≠ 200) :
    (PWNAPI.fetch_data_from_api st (.resp s b :: o :: .resp s2 b2 :: rest)
        url).result =
      .error (.apiError "Something really wrong happened!") := by
  have hnet : (PWNAuth.refresh_tokens st (o :: (.resp s2 b2 :: rest))).net =
      .resp s2 b2 :: rest := refresh_tokens_net st o _ hrt
  simp only [PWNAPI.fetch_data_from_api, ensureLogin, hauth, if_true, netNext]
  rw [if_pos hs]
  simp only [hnet, netNext]
  rw [if_neg hs2]

/-- Witness for C2 (amended): authenticated state, 401 then a rejected
refresh then a 401 retry. -/
theorem fetch_auth_retry_non200_generic_error_witness :
    (PWNAPI.fetch_data_from_api ⟨"alice", "secret", some "A1", some "R1"⟩
        [.resp 403 [], .resp 401 [], .resp 403 []] relationDataUrl).result =
      .error (.apiError "Something really wrong happened!") :=
  fetch_auth_retry_non200_generic_error _ _ _ _ _ _ _ _ rfl rfl
    (Or.inr rfl) (by decide)

/-- C3 counterexample: with no token held and login failing with 401, the
fetch still issues the GET to the data endpoint (with an absent bearer
token) and the final outcome is the generic error — no authentication-error
condition is propagated in place of the GET — so the claim is false at this
input. -/
theorem fetch_login_failure_counterexample :
    (PWNAPI.fetch_data_from_api ⟨"alice", "secret", none, none⟩
        [.resp 401 [], .resp 500 []] invoicesSummaryUrl).requests =
      [⟨"POST", loginUrl, none⟩, ⟨"GET", invoicesSummaryUrl, none⟩] ∧
      isAuthErrorResult
        (PWNAPI.fetch_data_from_api ⟨"alice", "secret", none, none⟩
          [.resp 401 [], .resp 500 []] invoicesSummaryUrl).result = false :=
  ⟨rfl, rfl⟩

/-- C3 (amended): whenever no access token is held, `login()` is invoked
before any GET — the first logged request is the login POST — but its
result is ignored: the GET to the data endpoint is always issued as the
second request, carrying whatever access token login left behind, even when
login failed. -/
theorem fetch_unauthenticated_login_then_get (st : AuthState)
    (net : List HttpOutcome) (url : String)
    (h : PWNAuth.is_authenticated st = false) :
    (PWNAPI.fetch_data_from_api st net url).requests.take 2 =
      [⟨"POST", loginUrl, none⟩,
       ⟨"GET", url, (PWNAuth.login st net).state.access_token⟩] := by
  simp only [PWNAPI.fetch_data_from_api, ensureLogin, h, Bool.false_eq_true,
    if_false]
  repeat' split
  all_goals simp [login_requests]

/-- Witness for C3 (amended): fresh state, failing login, GET still
issued. -/
theorem fetch_unauthenticated_login_then_get_witness :
    (PWNAPI.fetch_data_from_api ⟨"carol", "pw", none, none⟩
        [.resp 401 [], .resp 500 []] advanceUrl).requests.take 2 =
      [⟨"POST", loginUrl, none⟩,
       ⟨"GET", advanceUrl,
        (PWNAuth.login ⟨"carol", "pw", none, none⟩
          [.resp 401 [], .resp 500 []]).state.access_token⟩] :=
  fetch_unauthenticated_login_then_get _ _ _ rfl

/-- C4 counterexample: a timeout is surfaced as
`PWNAPICommunicationError` — the communication-error class itself, not a
timeout-specific condition — while a non-200 status (500) is surfaced as
the generic `PWNAPIError`, which is not the communication-error class; the
claim's assignment of conditions is false at these inputs. -/
theorem timeout_condition_counterexample :
    isCommunicationErrorResult
        (PWNAPI.fetch_data_from_api ⟨"alice", "secret", some "A1", some "R1"⟩
          [.timeout] invoicesSummaryUrl).result = true ∧
      isCommunicationErrorResult
        (PWNAPI.fetch_data_from_api ⟨"alice", "secret", some "A1", some "R1"⟩
          [.resp 500 []] invoicesSummaryUrl).result = false :=
  ⟨rfl, rfl⟩

/-- C4 (amended): a timeout is surfaced as
`PWNAPICommunicationError("Timeout error fetching information")` while a
non-200, non-auth status is surfaced as the generic
`PWNAPIError("Something really wrong happened!")`: the two outcomes are
distinguishable by class, but the timeout is reported through the
communication-error class (there is no timeout-specific condition), and the
non-200 condition is the generic error, not the communication error. -/
theorem timeout_vs_non200_conditions (st : AuthState) (url : String)
    (s : Nat) (b : Body)
    (hauth : PWNAuth.is_authenticated st = true)
    (hs401 : ¬(s = 401 ∨ s = 403)) (hs200 : s ≠ 200) :
    (PWNAPI.fetch_data_from_api st [.timeout] url).result =
        .error (.communicationError "Timeout error fetching information") ∧
      (PWNAPI.fetch_data_from_api st [.resp s b] url).result =
        .error (.apiError "Something really wrong happened!") := by
  constructor
  · simp [PWNAPI.fetch_data_from_api, ensureLogin, hauth, netNext]
  · simp [PWNAPI.fetch_data_from_api, ensureLogin, hauth, netNext, hs401,
      hs200]

/-- Witness for C4 (amended) at status 500. -/
theorem timeout_vs_non200_conditions_witness :
    (PWNAPI.fetch_data_from_api ⟨"dave", "pw", some "T", none⟩
          [.timeout] notificationsUrl).result =
        .error (.communicationError "Timeout error fetching information") ∧
      (PWNAPI.fetch_data_from_api ⟨"dave", "pw", some "T", none⟩
          [.resp 500 []] notificationsUrl).result =
        .error (.apiError "Something really wrong happened!") :=
  timeout_vs_non200_conditions _ _ _ _ rfl (by decide) (by decide)

theorem fetch_200 (st : AuthState) (hauth : PWNAuth.is_authenticated st = true)
    (body : Body) (rest : List HttpOutcome) (url : String) :
    PWNAPI.fetch_data_from_api st (.resp 200 body :: rest) url =
      ⟨.ok body, st, [⟨"GET", url, st.access_token⟩], rest⟩ := by
  simp [PWNAPI.fetch_data_from_api, ensureLogin, hauth, netNext]

/-- C9 counterexample: with six successful fetches whose relation-data body
has no `relationNumber` key, `_fetch_all_data` does not build its result
mapping — it fails with `UnboundLocalError` (the unassigned local
`contact_preferences` is referenced), so the claim that it silently
proceeds and still builds the mapping is false at this input. -/
theorem fetch_all_data_missing_relation_counterexample :
    (fetch_all_data ⟨"alice", "secret", some "A1", some "R1"⟩
        [.resp 200 [("numberOfOpenItems", "2")],
         .resp 200 [("name", "bob")],
         .resp 200 [("usage", "5")],
         .resp 200 [("p", "1")],
         .resp 200 [("a", "1")],
         .resp 200 [("n", "1")]]).result = .error .unboundLocalError := rfl

/-- C9 (amended): whenever the six endpoint fetches succeed with truthy
invoices, user-data and consumption-history bodies and the relation-data
body has no `relationNumber` key, the poll cycle raises
`UnboundLocalError` while building its result mapping — it fails rather
than proceeding, and produces no explicit absent value. -/
theorem fetch_all_data_missing_relation (st : AuthState)
    (inv user cons pay adv notif : Body) (rest : List HttpOutcome)
    (hauth : PWNAuth.is_authenticated st = true)
    (hinv : inv.isEmpty = false) (huser : user.isEmpty = false)
    (hcons : cons.isEmpty = false)
    (hrel : Body.get user "relationNumber" = none) :
    (fetch_all_data st
        ([.resp 200 inv, .resp 200 user, .resp 200 cons, .resp 200 pay,
          .resp 200 adv, .resp 200 notif] ++ rest)).result =
      .error .unboundLocalError := by
  simp only [List.cons_append, List.nil_append]
  unfold fetch_all_data
  simp only [fetch_200 _ hauth, hinv, huser, hcons, hrel, Bool.false_eq_true,
    if_false]

/-- Witness for C9 (amended) at concrete six-response traces. -/
theorem fetch_all_data_missing_relation_witness :
    (fetch_all_data ⟨"erin", "pw", some "T2", some "R2"⟩
        ([.resp 200 [("open", "1")], .resp 200 [("city", "x")],
          .resp 200 [("hist", "2")], .resp 200 [("pay", "3")],
          .resp 200 [("adv", "4")], .resp 200 [("note", "5")]] ++
          [])).result = .error .unboundLocalError :=
  fetch_all_data_missing_relation _ _ _ _ _ _ _ _ rfl rfl rfl rfl rfl

end MijnPwn
